import Mathlib

/-!
# Verification of the api-rust nested-document / pagination / error-taxonomy core

A shallow embedding of the core components of the `api-rust` repository
(`src/dto/pagination.rs`, `src/response/mod.rs`, `src/entities/post.rs`,
`src/entities/user.rs`, `src/dto/post.rs`, `src/dto/user.rs`,
`src/validation/mod.rs`, `src/error/mod.rs`, `src/services/user_service.rs`,
`src/services/post_service.rs`, `src/controllers/post_controller.rs`),
together with theorems settling the specification claims about it.

Modelling conventions:
* Rust `u64` values are modelled as `Nat`; `i32` values as `Int`.  Where the
  Rust code performs checked arithmetic that can panic (overflowing `-`,
  division by zero), the embedded function returns `Option` and a panic is
  `none`.
* Rust `String`s are modelled as Lean `String`s viewed as sequences of
  characters; the `validator` crate counts characters (`chars().count()`),
  which is `String.length`.
* `DateTime` timestamps are modelled as opaque integers.
* Fallible store-backed operations return `Except ServiceError` and take the
  database (a list of rows) explicitly; mutating operations return the
  updated database.  The clock and the id generator are explicit parameters.
-/

namespace ApiRust

/-! ## Pagination (src/dto/pagination.rs) -/

/-- `PaginationQuery` from src/dto/pagination.rs. -/
structure PaginationQuery where
  page : Nat
  per_page : Nat
deriving Repr, DecidableEq

/-- `default_page()` from src/dto/pagination.rs. -/
def default_page : Nat := 1

/-- `default_per_page()` from src/dto/pagination.rs. -/
def default_per_page : Nat := 10

/-- serde deserialization of `PaginationQuery` from the query string: each
field falls back to its serde default when absent; a present value is taken
as-is.  The `#[param(minimum = 1, maximum = 100, default = 10)]` attribute
only feeds the generated OpenAPI schema; it enforces nothing at
deserialization time. -/
def PaginationQuery.deserialize (page : Option Nat) (per_page : Option Nat) : PaginationQuery :=
  { page := page.getD default_page, per_page := per_page.getD default_per_page }

/-- `PaginationQuery::offset`: `(self.page.saturating_sub(1)) * self.per_page`.
`Nat` subtraction is saturating subtraction. -/
def PaginationQuery.offset (q : PaginationQuery) : Nat :=
  (q.page - 1) * q.per_page

/-- `PaginationQuery::limit`: returns `per_page`. -/
def PaginationQuery.limit (q : PaginationQuery) : Nat :=
  q.per_page

/-! ## Pagination metadata (src/response/mod.rs) -/

/-- `PaginationMeta` from src/response/mod.rs. -/
structure PaginationMeta where
  total : Nat
  page : Nat
  per_page : Nat
  total_pages : Nat
deriving Repr, DecidableEq

/-- `PaginationMeta::new`: `total_pages = (total + per_page - 1) / per_page`
on `u64`.  The subtraction `total + per_page - 1` panics (checked arithmetic)
when `total + per_page = 0`, and the division panics when `per_page = 0`;
a panic is modelled as `none`. -/
def PaginationMeta.new (total page per_page : Nat) : Option PaginationMeta :=
  if total + per_page = 0 then none
  else if per_page = 0 then none
  else some { total := total, page := page, per_page := per_page,
              total_pages := (total + per_page - 1) / per_page }

/-- Modelled from the spec: `total_pages = ceil(total / per_page)`; "when
`per_page` divides evenly, use exact quotient; otherwise round up"
(spec §4.1).  Used only to compare the code's formula against the spec's. -/
def ceilDivSpec (total per_page : Nat) : Nat :=
  total / per_page + if total % per_page = 0 then 0 else 1

/-! ## JSON values (serde_json::Value) -/

/-- A `serde_json::Value`.  Numbers are modelled as integers (the only numbers
the embedded structs serialize are `i32`); an object is a list of key/value
pairs in insertion order. -/
inductive Json where
  | null
  | bool (b : Bool)
  | num (n : Int)
  | str (s : String)
  | arr (elems : List Json)
  | obj (fields : List (String × Json))

/-- Look a key up in the fields of a JSON object (first occurrence). -/
def Json.lookup (fields : List (String × Json)) (key : String) : Option Json :=
  (fields.find? (fun kv => kv.1 == key)).map (fun kv => kv.2)

/-! ## The nested Metadata document (src/entities/post.rs) -/

/-- `Tag` from src/entities/post.rs. -/
structure Tag where
  name : String
  color : Option String
deriving Repr, DecidableEq

/-- `SeoMetadata` from src/entities/post.rs. -/
structure SeoMetadata where
  meta_title : Option String
  meta_description : Option String
  keywords : List String
deriving Repr, DecidableEq

/-- `PostSettings` from src/entities/post.rs. -/
structure PostSettings where
  allow_comments : Bool
  featured : Bool
  reading_time_minutes : Option Int
deriving Repr, DecidableEq

/-- `PostMetadata` from src/entities/post.rs. -/
structure PostMetadata where
  tags : List Tag
  seo : Option SeoMetadata
  settings : Option PostSettings
deriving Repr, DecidableEq

/-- `impl Default for PostMetadata`: empty tags, no seo, no settings. -/
def PostMetadata.default : PostMetadata :=
  { tags := [], seo := none, settings := none }

/-! ### serde Serialize derive for the Metadata document

The derived `Serialize` writes each struct as a JSON object with the fields
in declaration order; an `Option` field is written as `null` when `None` and
as the inner value when `Some`. -/

/-- Serialize an optional value the way serde does (`None` becomes `null`). -/
def optJson (f : α → Json) : Option α → Json
  | none => Json.null
  | some a => f a

/-- serde serialization of `Tag`. -/
def Tag.toJson (t : Tag) : Json :=
  Json.obj [("name", Json.str t.name), ("color", optJson Json.str t.color)]

/-- serde serialization of `SeoMetadata`. -/
def SeoMetadata.toJson (s : SeoMetadata) : Json :=
  Json.obj [("meta_title", optJson Json.str s.meta_title),
            ("meta_description", optJson Json.str s.meta_description),
            ("keywords", Json.arr (s.keywords.map Json.str))]

/-- serde serialization of `PostSettings`. -/
def PostSettings.toJson (s : PostSettings) : Json :=
  Json.obj [("allow_comments", Json.bool s.allow_comments),
            ("featured", Json.bool s.featured),
            ("reading_time_minutes", optJson Json.num s.reading_time_minutes)]

/-- serde serialization of `PostMetadata`. -/
def PostMetadata.toJson (m : PostMetadata) : Json :=
  Json.obj [("tags", Json.arr (m.tags.map Tag.toJson)),
            ("seo", optJson SeoMetadata.toJson m.seo),
            ("settings", optJson PostSettings.toJson m.settings)]

/-! ### serde Deserialize derive for the Metadata document

The derived `Deserialize` reads a JSON object; a non-`Option` field must be
present with a value of the right shape, an `Option` field may be absent or
`null` (both give `None`); a shape mismatch anywhere is an error (`none`). -/

/-- Deserialize a JSON string. -/
def asStr : Json → Option String
  | Json.str s => some s
  | _ => none

/-- Deserialize a JSON boolean. -/
def asBool : Json → Option Bool
  | Json.bool b => some b
  | _ => none

/-- Deserialize a JSON integer. -/
def asInt : Json → Option Int
  | Json.num n => some n
  | _ => none

/-- serde semantics for an `Option` field: absent or `null` is `None`;
otherwise the inner deserializer runs and its failure is a failure. -/
def parseOptField (p : Json → Option α) : Option Json → Option (Option α)
  | none => some none
  | some Json.null => some none
  | some j => (p j).map some

/-- serde semantics for a sequence: deserialize every element in order,
failing if any element fails. -/
def parseElems (p : Json → Option α) : List Json → Option (List α)
  | [] => some []
  | j :: js => do
    let a ← p j
    let as ← parseElems p js
    pure (a :: as)

/-- Deserialize a JSON array of strings. -/
def asStrList : Json → Option (List String)
  | Json.arr xs => parseElems asStr xs
  | _ => none

/-- serde deserialization of `Tag`. -/
def Tag.fromJson (j : Json) : Option Tag :=
  match j with
  | Json.obj fields => do
    let name ← (Json.lookup fields "name").bind asStr
    let color ← parseOptField asStr (Json.lookup fields "color")
    pure { name := name, color := color }
  | _ => none

/-- serde deserialization of `SeoMetadata`. -/
def SeoMetadata.fromJson (j : Json) : Option SeoMetadata :=
  match j with
  | Json.obj fields => do
    let mt ← parseOptField asStr (Json.lookup fields "meta_title")
    let md ← parseOptField asStr (Json.lookup fields "meta_description")
    let kw ← (Json.lookup fields "keywords").bind asStrList
    pure { meta_title := mt, meta_description := md, keywords := kw }
  | _ => none

/-- serde deserialization of `PostSettings`. -/
def PostSettings.fromJson (j : Json) : Option PostSettings :=
  match j with
  | Json.obj fields => do
    let ac ← (Json.lookup fields "allow_comments").bind asBool
    let ft ← (Json.lookup fields "featured").bind asBool
    let rt ← parseOptField asInt (Json.lookup fields "reading_time_minutes")
    pure { allow_comments := ac, featured := ft, reading_time_minutes := rt }
  | _ => none

/-- Deserialize a JSON array of tags. -/
def asTagList : Json → Option (List Tag)
  | Json.arr xs => parseElems Tag.fromJson xs
  | _ => none

/-- serde deserialization of `PostMetadata` (`serde_json::from_value`). -/
def PostMetadata.fromJson (j : Json) : Option PostMetadata :=
  match j with
  | Json.obj fields => do
    let tags ← (Json.lookup fields "tags").bind asTagList
    let seo ← parseOptField SeoMetadata.fromJson (Json.lookup fields "seo")
    let settings ← parseOptField PostSettings.fromJson (Json.lookup fields "settings")
    pure { tags := tags, seo := seo, settings := settings }
  | _ => none

/-! ## Entities (src/entities/user.rs, src/entities/post.rs) -/

/-- `user::Model` (`entities/user.rs`). -/
structure UserModel where
  id : Int
  username : String
  email : String
  created_at : Int
deriving Repr, DecidableEq

/-- `post::Model` (`entities/post.rs`): the metadata column holds a raw JSON
value. -/
structure PostModel where
  id : Int
  title : String
  content : String
  author_id : Int
  metadata : Json
  published : Bool
  created_at : Int
  updated_at : Option Int

/-- `post::Model::get_metadata`:
`serde_json::from_value(self.metadata.clone()).unwrap_or_default()` — total:
a deserialization failure falls back to `PostMetadata::default()`. -/
def PostModel.get_metadata (m : PostModel) : PostMetadata :=
  (PostMetadata.fromJson m.metadata).getD PostMetadata.default

/-! ## Input DTOs (src/dto/post.rs, src/dto/user.rs) -/

/-- `CreateTagDto`. -/
structure CreateTagDto where
  name : String
  color : Option String
deriving Repr, DecidableEq

/-- `CreateSeoMetadataDto`. -/
structure CreateSeoMetadataDto where
  meta_title : Option String
  meta_description : Option String
  keywords : Option (List String)
deriving Repr, DecidableEq

/-- `CreatePostSettingsDto`. -/
structure CreatePostSettingsDto where
  allow_comments : Bool
  featured : Bool
  reading_time_minutes : Option Int
deriving Repr, DecidableEq

/-- `CreatePostMetadataDto`. -/
structure CreatePostMetadataDto where
  tags : Option (List CreateTagDto)
  seo : Option CreateSeoMetadataDto
  settings : Option CreatePostSettingsDto
deriving Repr, DecidableEq

/-- `CreatePostDto`. -/
structure CreatePostDto where
  title : String
  content : String
  author_id : Int
  metadata : Option CreatePostMetadataDto
  published : Bool
deriving Repr, DecidableEq

/-- `UpdatePostDto`: every field optional. -/
structure UpdatePostDto where
  title : Option String
  content : Option String
  metadata : Option CreatePostMetadataDto
  published : Option Bool
deriving Repr, DecidableEq

/-- `CreateUserDto`. -/
structure CreateUserDto where
  username : String
  email : String
deriving Repr, DecidableEq

/-- `UpdateUserDto`. -/
structure UpdateUserDto where
  username : Option String
  email : Option String
deriving Repr, DecidableEq

/-! ## DTO → entity conversions (src/dto/post.rs, `From` impls) -/

/-- `From<CreateTagDto> for Tag`. -/
def CreateTagDto.toTag (t : CreateTagDto) : Tag :=
  { name := t.name, color := t.color }

/-- `From<CreateSeoMetadataDto> for SeoMetadata`: absent keywords default to
the empty list. -/
def CreateSeoMetadataDto.toSeoMetadata (s : CreateSeoMetadataDto) : SeoMetadata :=
  { meta_title := s.meta_title, meta_description := s.meta_description,
    keywords := s.keywords.getD [] }

/-- `From<CreatePostSettingsDto> for PostSettings`. -/
def CreatePostSettingsDto.toPostSettings (s : CreatePostSettingsDto) : PostSettings :=
  { allow_comments := s.allow_comments, featured := s.featured,
    reading_time_minutes := s.reading_time_minutes }

/-- `From<CreatePostMetadataDto> for PostMetadata`: absent tags default to
the empty list; seo and settings convert element-wise. -/
def CreatePostMetadataDto.toPostMetadata (m : CreatePostMetadataDto) : PostMetadata :=
  { tags := (m.tags.getD []).map CreateTagDto.toTag,
    seo := m.seo.map CreateSeoMetadataDto.toSeoMetadata,
    settings := m.settings.map CreatePostSettingsDto.toPostSettings }

/-- `CreatePostMetadataDto::to_json`: converts to `PostMetadata` and
serializes it.  (Serialization of `PostMetadata` cannot fail, so the
`unwrap_or(json!(..))` fallback in the source is dead.) -/
def CreatePostMetadataDto.to_json (m : CreatePostMetadataDto) : Json :=
  m.toPostMetadata.toJson

/-- The `Default` impl for `CreatePostMetadataDto`: all fields `None`. -/
def CreatePostMetadataDto.defaultDto : CreatePostMetadataDto :=
  { tags := none, seo := none, settings := none }

/-! ## Output DTOs (src/dto/post.rs) -/

/-- `AuthorResponse`. -/
structure AuthorResponse where
  id : Int
  username : String
  email : String
deriving Repr, DecidableEq

/-- `From<user::Model> for AuthorResponse`. -/
def AuthorResponse.fromUser (u : UserModel) : AuthorResponse :=
  { id := u.id, username := u.username, email := u.email }

/-- `TagResponse`. -/
structure TagResponse where
  name : String
  color : Option String
deriving Repr, DecidableEq

/-- `From<Tag> for TagResponse`. -/
def TagResponse.fromTag (t : Tag) : TagResponse :=
  { name := t.name, color := t.color }

/-- `PostListItemResponse`: the lighter projection used for collection
listings. -/
structure PostListItemResponse where
  id : Int
  title : String
  excerpt : String
  published : Bool
  created_at : Int
  author : AuthorResponse
  tags : List TagResponse

/-- Rust `String::len()`: the length of the UTF-8 encoding in bytes — the
sum of the byte sizes of the characters, not the character count. -/
def utf8Len : List Char → Nat
  | [] => 0
  | c :: cs => c.utf8Size + utf8Len cs

/-- The Rust byte slice `&s[..n]`: the characters making up the first `n`
bytes of the UTF-8 encoding.  When `n` does not fall on a character boundary
(or lies past the end) the slice panics, modelled as `none`. -/
def byteTake : List Char → Nat → Option (List Char)
  | _, 0 => some []
  | [], _ + 1 => none
  | c :: cs, n + 1 =>
    if c.utf8Size ≤ n + 1 then
      (byteTake cs (n + 1 - c.utf8Size)).map (fun l => c :: l)
    else none

/-- `PostListItemResponse::from_post_with_author`:
`if post.content.len() > 100 { format!("{}...", &post.content[..100]) }` —
`len()` counts UTF-8 bytes and `&content[..100]` slices the first 100 bytes,
panicking (`none`) when byte offset 100 falls inside a character; content of
at most 100 bytes is used verbatim. -/
def PostListItemResponse.from_post_with_author (post : PostModel) (author : UserModel) :
    Option PostListItemResponse :=
  let metadata := post.get_metadata
  let excerptOrPanic :=
    if 100 < utf8Len post.content.data then
      (byteTake post.content.data 100).map (fun pre => String.mk pre ++ "...")
    else some post.content
  excerptOrPanic.map (fun excerpt =>
    { id := post.id, title := post.title, excerpt := excerpt,
      published := post.published, created_at := post.created_at,
      author := AuthorResponse.fromUser author,
      tags := metadata.tags.map TagResponse.fromTag })

/-! ## Validation cascade (validator crate derive + src/validation/mod.rs)

The `validator` crate stores violations as a map from field name to a
`ValidationErrorsKind`: a direct field violation carries a list of messages
(`Field`), a `#[validate(nested)]` struct field nests a whole error map
(`Struct`), and a `#[validate(nested)]` list field nests one error map per
failing index (`List`).  The map is modelled as an association list in
field-declaration order (the Rust `HashMap` iteration order is unspecified;
no theorem below depends on the order of distinct fields). -/

/-- A `validator::ValidationErrorsKind`. -/
inductive VKind where
  | fieldKind (messages : List String)
  | structKind (errs : List (String × VKind))
  | listKind (errs : List (Nat × List (String × VKind)))

/-- A `validator::ValidationErrors` map. -/
abbrev VErrors := List (String × VKind)

/-- `CreateTagDto::validate` (derive): name length 1–50 in characters, color
length at most 7 if present. -/
def CreateTagDto.validate (t : CreateTagDto) : VErrors :=
  (if t.name.length < 1 ∨ 50 < t.name.length then
    [("name", VKind.fieldKind ["Le nom du tag doit faire entre 1 et 50 caractères"])]
  else []) ++
  (match t.color with
   | some c =>
     if 7 < c.length then
       [("color", VKind.fieldKind ["La couleur doit être un code hex (ex: #FF0000)"])]
     else []
   | none => [])

/-- `CreateSeoMetadataDto::validate` (derive): meta_title at most 70,
meta_description at most 160, keywords list at most 10 entries. -/
def CreateSeoMetadataDto.validate (s : CreateSeoMetadataDto) : VErrors :=
  (match s.meta_title with
   | some v =>
     if 70 < v.length then
       [("meta_title", VKind.fieldKind ["Le meta title ne doit pas dépasser 70 caractères"])]
     else []
   | none => []) ++
  (match s.meta_description with
   | some v =>
     if 160 < v.length then
       [("meta_description", VKind.fieldKind ["La meta description ne doit pas dépasser 160 caractères"])]
     else []
   | none => []) ++
  (match s.keywords with
   | some ks =>
     if 10 < ks.length then
       [("keywords", VKind.fieldKind ["Maximum 10 keywords autorisés"])]
     else []
   | none => [])

/-- `CreatePostSettingsDto::validate` (derive): reading_time_minutes in
[1, 60] if present. -/
def CreatePostSettingsDto.validate (s : CreatePostSettingsDto) : VErrors :=
  match s.reading_time_minutes with
  | some n =>
    if n < 1 ∨ 60 < n then
      [("reading_time_minutes",
        VKind.fieldKind ["Le temps de lecture doit être entre 1 et 60 minutes"])]
    else []
  | none => []

/-- Per-index validation of a nested list field: the error maps of the
failing elements, keyed by index. -/
def nestedListErrs (validate : α → VErrors) (xs : List α) : List (Nat × VErrors) :=
  (xs.enum.map (fun ia => (ia.1, validate ia.2))).filter (fun p => !p.2.isEmpty)

/-- `CreatePostMetadataDto::validate` (derive): the tags list length is
checked independently of the per-tag checks; each tag, the seo block and the
settings block are validated recursively. -/
def CreatePostMetadataDto.validate (m : CreatePostMetadataDto) : VErrors :=
  (match m.tags with
   | some ts =>
     if 10 < ts.length then
       [("tags", VKind.fieldKind ["Maximum 10 tags autorisés"])]
     else []
   | none => []) ++
  (match m.tags with
   | some ts =>
     let per := nestedListErrs CreateTagDto.validate ts
     if per.isEmpty then [] else [("tags", VKind.listKind per)]
   | none => []) ++
  (match m.seo with
   | some s =>
     let e := s.validate
     if e.isEmpty then [] else [("seo", VKind.structKind e)]
   | none => []) ++
  (match m.settings with
   | some s =>
     let e := s.validate
     if e.isEmpty then [] else [("settings", VKind.structKind e)]
   | none => [])

/-- `CreatePostDto::validate` (derive): title 3–255, content at least 10,
author_id at least 1, metadata validated recursively if present. -/
def CreatePostDto.validate (d : CreatePostDto) : VErrors :=
  (if d.title.length < 3 ∨ 255 < d.title.length then
    [("title", VKind.fieldKind ["Le titre doit faire entre 3 et 255 caractères"])]
  else []) ++
  (if d.content.length < 10 then
    [("content", VKind.fieldKind ["Le contenu doit faire au moins 10 caractères"])]
  else []) ++
  (if d.author_id < 1 then
    [("author_id", VKind.fieldKind ["L'ID auteur doit être positif"])]
  else []) ++
  (match d.metadata with
   | some m =>
     let e := m.validate
     if e.isEmpty then [] else [("metadata", VKind.structKind e)]
   | none => [])

/-- `ValidationErrors::field_errors()`: keeps only the `Field`-kind entries
of the top-level error map — `Struct` and `List` entries (the nested
violations) are dropped. -/
def field_errors (errs : VErrors) : List (String × List String) :=
  errs.filterMap (fun fk =>
    match fk.2 with
    | VKind.fieldKind messages => some (fk.1, messages)
    | _ => none)

/-- One entry of the `violations` array in the 422 response body. -/
structure Violation where
  field : String
  messages : List String
deriving Repr, DecidableEq

/-- `ValidationError::into_response` for the `ValidationFailed` variant:
status 422 (unprocessable entity) and one violation per entry of
`field_errors()`. -/
def validationFailedResponse (errs : VErrors) : Nat × List Violation :=
  (422, (field_errors errs).map (fun p => { field := p.1, messages := p.2 }))

/-! ## Error taxonomy (src/error/mod.rs) -/

/-- `ServiceError`: the business tier. -/
inductive ServiceError where
  | notFound
  | alreadyExists (msg : String)
  | database (msg : String)
deriving Repr, DecidableEq

/-- `ApiError`: the transport tier. -/
inductive ApiError where
  | notFound
  | badRequest (msg : String)
  | validationError (msg : String)
  | conflict (msg : String)
  | internalError (msg : String)
  | databaseError (msg : String)
deriving Repr, DecidableEq

/-- `From<ServiceError> for ApiError`: the total business-to-transport
mapping. -/
def ServiceError.toApiError : ServiceError → ApiError
  | ServiceError.notFound => ApiError.notFound
  | ServiceError.alreadyExists msg => ApiError.conflict msg
  | ServiceError.database msg => ApiError.databaseError msg

/-- The serialized error body: `error` plus an optional `details` field. -/
structure ErrorResponse where
  error : String
  details : Option String
deriving Repr, DecidableEq

/-- `impl IntoResponse for ApiError`: HTTP status plus body.  Internal and
database errors log the detail server-side and send `details = none`. -/
def ApiError.into_response : ApiError → Nat × ErrorResponse
  | ApiError.notFound => (404, { error := "Resource not found", details := none })
  | ApiError.badRequest msg => (400, { error := "Bad request", details := some msg })
  | ApiError.validationError msg => (422, { error := "Validation error", details := some msg })
  | ApiError.conflict msg => (409, { error := "Conflict", details := some msg })
  | ApiError.internalError _ => (500, { error := "Internal server error", details := none })
  | ApiError.databaseError _ => (500, { error := "Database error", details := none })

/-! ## Services (src/services/user_service.rs, src/services/post_service.rs)

The row store behind SeaORM is passed explicitly as lists of rows; `insert`
returns the extended list, `update` the mapped list.  The clock (`now`) and
the store-assigned id of an insert are explicit parameters. -/

/-- The two tables the services touch. -/
structure Db where
  users : List UserModel
  posts : List PostModel

/-- `UserService::create`: pre-insert uniqueness check on the email, then
insert.  Returns the updated table and the created row. -/
def UserService.create (users : List UserModel) (dto : CreateUserDto)
    (now newId : Int) : Except ServiceError (List UserModel × UserModel) :=
  match users.find? (fun u => u.email == dto.email) with
  | some _ => Except.error (ServiceError.alreadyExists "Email already exists")
  | none =>
    let user : UserModel :=
      { id := newId, username := dto.username, email := dto.email, created_at := now }
    Except.ok (users ++ [user], user)

/-- `UserService::update`: look the row up by id, re-check email uniqueness
only when the DTO carries an email different from the current one, then
apply the fields present in the DTO. -/
def UserService.update (users : List UserModel) (id : Int) (dto : UpdateUserDto) :
    Except ServiceError (List UserModel × UserModel) :=
  match users.find? (fun u => u.id == id) with
  | none => Except.error ServiceError.notFound
  | some user =>
    let emailConflict :=
      match dto.email with
      | some newEmail =>
        if newEmail ≠ user.email then
          (users.find? (fun u : UserModel => u.email == newEmail)).isSome
        else false
      | none => false
    if emailConflict then Except.error (ServiceError.alreadyExists "Email already exists")
    else
      let updated : UserModel :=
        { user with username := dto.username.getD user.username,
                    email := dto.email.getD user.email }
      Except.ok (users.map (fun u : UserModel => if u.id == id then updated else u), updated)

/-- Insert a post into a list already sorted by creation time descending. -/
def insertByCreatedAtDesc (p : PostModel) : List PostModel → List PostModel
  | [] => [p]
  | q :: qs =>
    if q.created_at ≤ p.created_at then p :: q :: qs
    else q :: insertByCreatedAtDesc p qs

/-- `order_by_desc(post::Column::CreatedAt)`: the store returns the rows
sorted by creation time descending (SQL leaves the order of ties
unspecified; the model sorts by insertion). -/
def sortByCreatedAtDesc : List PostModel → List PostModel
  | [] => []
  | p :: ps => insertByCreatedAtDesc p (sortByCreatedAtDesc ps)

/-- `PostService::find_all`: count, then fetch one page ordered by creation
time descending, then fetch each post's author individually (a missing
author is `NotFound`). -/
def PostService.find_all (db : Db) (pagination : PaginationQuery) :
    Except ServiceError (List (PostModel × UserModel) × Nat) :=
  let total := db.posts.length
  let page := ((sortByCreatedAtDesc db.posts).drop pagination.offset).take pagination.limit
  match page.mapM (fun p =>
      (db.users.find? (fun u => u.id == p.author_id)).map (fun a => (p, a))) with
  | some withAuthors => Except.ok (withAuthors, total)
  | none => Except.error ServiceError.notFound

/-- `PostService::update`: look the post up by id, load its author, apply
only the fields present in the DTO (metadata, when present, is converted by
`to_json` and replaces the whole stored document), and stamp `updated_at`
with the current time. -/
def PostService.update (db : Db) (id : Int) (dto : UpdatePostDto) (now : Int) :
    Except ServiceError (Db × PostModel × UserModel) :=
  match db.posts.find? (fun p => p.id == id) with
  | none => Except.error ServiceError.notFound
  | some existing =>
    match db.users.find? (fun u => u.id == existing.author_id) with
    | none => Except.error ServiceError.notFound
    | some author =>
      let updated : PostModel :=
        { existing with
          title := dto.title.getD existing.title,
          content := dto.content.getD existing.content,
          metadata := match dto.metadata with
                      | some m => m.to_json
                      | none => existing.metadata,
          published := dto.published.getD existing.published,
          updated_at := some now }
      Except.ok
        ({ db with posts := db.posts.map (fun p => if p.id == id then updated else p) },
         updated, author)

/-! ## List endpoint (src/controllers/post_controller.rs) -/

/-- `list_posts`: run `find_all` with the deserialized pagination query, map
every row into a `PostListItemResponse` (the excerpt slice can panic), and
wrap the result with `ApiResponseBuilder::paginated`, whose metadata is
built by `PaginationMeta::new(total, page, per_page)` (which can also
panic).  The outer `Option` models either panic, in the order the code runs
them: the rows are mapped first, the metadata is computed afterwards. -/
def list_posts (db : Db) (pagination : PaginationQuery) :
    Option (Except ApiError (List PostListItemResponse × PaginationMeta)) :=
  match PostService.find_all db pagination with
  | Except.error e => some (Except.error e.toApiError)
  | Except.ok (pairs, total) =>
    (pairs.mapM (fun pa => PostListItemResponse.from_post_with_author pa.1 pa.2)).bind
      (fun items =>
        (PaginationMeta.new total pagination.page pagination.per_page).map (fun meta =>
          Except.ok (items, meta)))

/-! ## Concrete inputs used by the witnesses and counterexamples below -/

/-- A tag whose name is 60 characters long (valid length is 1–50). -/
def tag60 : CreateTagDto :=
  { name := String.mk (List.replicate 60 'a'), color := none }

/-- A create-post request with valid title, content and author id, whose only
violation sits inside the nested tag. -/
def nestedTagRequest : CreatePostDto :=
  { title := "A perfectly valid title",
    content := "Content that is comfortably longer than ten characters.",
    author_id := 1,
    metadata := some { tags := some [tag60], seo := none, settings := none },
    published := false }

/-- A sample user row. -/
def alice : UserModel :=
  { id := 1, username := "alice", email := "alice@example.com", created_at := 0 }

/-- A second sample user row. -/
def bob : UserModel :=
  { id := 2, username := "bob", email := "bob@example.com", created_at := 0 }

/-- Content of 101 characters. -/
def longContent : String := String.mk (List.replicate 101 'a')

/-- A post whose content is 101 characters long. -/
def longPost : PostModel :=
  { id := 1, title := "a title", content := longContent, author_id := 1,
    metadata := Json.null, published := false, created_at := 0, updated_at := none }

/-- A post whose content is 13 characters long. -/
def shortPost : PostModel :=
  { id := 2, title := "a title", content := "short content", author_id := 1,
    metadata := Json.null, published := false, created_at := 0, updated_at := none }

/-- Content of 51 characters, each 2 UTF-8 bytes: 102 bytes in total. -/
def accentContent : String := String.mk (List.replicate 51 'é')

/-- A post whose content is 51 characters but 102 bytes long. -/
def accentPost : PostModel :=
  { id := 7, title := "a title", content := accentContent, author_id := 1,
    metadata := Json.null, published := false, created_at := 0, updated_at := none }

/-- Content whose byte offset 100 falls inside a character: one 1-byte
character followed by 100 2-byte characters (201 bytes). -/
def straddleContent : String := String.mk ('a' :: List.replicate 100 'é')

/-- A post whose content makes the excerpt byte slice panic. -/
def straddlePost : PostModel :=
  { id := 8, title := "a title", content := straddleContent, author_id := 1,
    metadata := Json.null, published := false, created_at := 0, updated_at := none }

/-- One row of the 120-post table used against the per_page cap. -/
def smallPost : PostModel :=
  { id := 3, title := "a title", content := "hello there!", author_id := 1,
    metadata := Json.null, published := false, created_at := 0, updated_at := none }

/-- A table of 120 posts whose single author is `alice`. -/
def bigDb : Db := { users := [alice], posts := List.replicate 120 smallPost }

/-- A stored post row whose metadata column holds a corrupt document. -/
def corruptPost : PostModel :=
  { id := 9, title := "a title", content := "some content", author_id := 1,
    metadata := Json.str "corrupt", published := false, created_at := 0,
    updated_at := none }

/-- A post row for the partial-update witness. -/
def updatablePost : PostModel :=
  { id := 5, title := "old title", content := "the old content",
    author_id := 1, metadata := Json.obj [("tags", Json.arr [])],
    published := true, created_at := 3, updated_at := none }

/-- A database holding `updatablePost` and its author. -/
def updateDb : Db := { users := [alice], posts := [updatablePost] }

/-- An update DTO carrying only a title. -/
def titleOnlyDto : UpdatePostDto :=
  { title := some "new title", content := none, metadata := none, published := none }

/-- A metadata document used to check full replacement on update. -/
def replacementMetadataDto : CreatePostMetadataDto :=
  { tags := some [{ name := "rust", color := some "#DEA584" }],
    seo := none, settings := none }

/-- An update DTO carrying only a metadata document. -/
def metadataOnlyDto : UpdatePostDto :=
  { title := none, content := none, metadata := some replacementMetadataDto,
    published := none }

/-- A create-post request whose title and content are both too short. -/
def badTitleContentDto : CreatePostDto :=
  { title := "ab", content := "short", author_id := 1, metadata := none,
    published := false }

/-! ## Helper lemmas -/

/-- The code's `(total + per_page - 1) / per_page` formula computes the
spec's rounded-up quotient. -/
theorem add_pred_div_eq_ceilDivSpec (t p : Nat) (hp : 0 < p) :
    (t + p - 1) / p = ceilDivSpec t p := by
  have hdm : p * (t / p) + t % p = t := Nat.div_add_mod t p
  have hrlt : t % p < p := Nat.mod_lt _ hp
  unfold ceilDivSpec
  by_cases h : t % p = 0
  · have h1 : t + p - 1 = p * (t / p) + (p - 1) := by omega
    rw [h1, Nat.mul_add_div hp, Nat.div_eq_of_lt (show p - 1 < p by omega), if_pos h]
  · have h1 : t + p - 1 = p * (t / p + 1) + (t % p - 1) := by
      rw [Nat.mul_add, Nat.mul_one]
      omega
    rw [h1, Nat.mul_add_div hp, Nat.div_eq_of_lt (show t % p - 1 < p by omega), if_neg h]

/-- `ceilDivSpec t p` really is the ceiling of `t / p`: it is the least `n`
with `t ≤ n * p`. -/
theorem ceilDivSpec_is_ceil (t p : Nat) (hp : 0 < p) :
    t ≤ ceilDivSpec t p * p ∧ ∀ n, t ≤ n * p → ceilDivSpec t p ≤ n := by
  have hdm : p * (t / p) + t % p = t := Nat.div_add_mod t p
  have hrlt : t % p < p := Nat.mod_lt _ hp
  have hc : t / p * p = p * (t / p) := Nat.mul_comm _ _
  unfold ceilDivSpec
  constructor
  · by_cases h : t % p = 0
    · rw [if_pos h, Nat.add_zero]
      omega
    · rw [if_neg h, Nat.add_mul, Nat.one_mul]
      omega
  · intro n hn
    by_cases h : t % p = 0
    · rw [if_pos h, Nat.add_zero]
      have h2 : t / p * p ≤ n * p := by omega
      exact Nat.le_of_mul_le_mul_right h2 hp
    · rw [if_neg h]
      have h2 : t / p * p < n * p := by omega
      have h3 : t / p < n := Nat.lt_of_mul_lt_mul_right h2
      omega

/-! ## Claims -/

/-- C1: for every page and every `per_page ≥ 1`, the offset is
`(page - 1) * per_page` with the page-0 underflow clamped to offset 0 by
saturating subtraction, the limit is `per_page`, and for every total the
computed `total_pages` is `ceil(total / per_page)` — the least `n` with
`total ≤ n * per_page`, equal to the exact quotient when `per_page` divides
`total` and to the rounded-up quotient otherwise; `total = 0` gives
`total_pages = 0`. -/
theorem c1_pagination_arithmetic (page per_page total : Nat) (hpp : 1 ≤ per_page) :
    PaginationQuery.offset { page := 0, per_page := per_page } = 0 ∧
    PaginationQuery.offset { page := page + 1, per_page := per_page } = page * per_page ∧
    PaginationQuery.limit { page := page, per_page := per_page } = per_page ∧
    ∃ meta, PaginationMeta.new total page per_page = some meta ∧
      meta.total_pages = ceilDivSpec total per_page ∧
      total ≤ meta.total_pages * per_page ∧
      (∀ n, total ≤ n * per_page → meta.total_pages ≤ n) ∧
      (total = 0 → meta.total_pages = 0) := by
  have hp : 0 < per_page := hpp
  refine ⟨by simp [PaginationQuery.offset], by simp [PaginationQuery.offset], rfl, ?_⟩
  unfold PaginationMeta.new
  rw [if_neg (by omega), if_neg (by omega)]
  refine ⟨_, rfl, ?_, ?_, ?_, ?_⟩
  · exact add_pred_div_eq_ceilDivSpec total per_page hp
  · show total ≤ (total + per_page - 1) / per_page * per_page
    rw [add_pred_div_eq_ceilDivSpec total per_page hp]
    exact (ceilDivSpec_is_ceil total per_page hp).1
  · intro n hn
    show (total + per_page - 1) / per_page ≤ n
    rw [add_pred_div_eq_ceilDivSpec total per_page hp]
    exact (ceilDivSpec_is_ceil total per_page hp).2 n hn
  · intro h
    subst h
    show (0 + per_page - 1) / per_page = 0
    exact Nat.div_eq_of_lt (by omega)

/-- Witness for C1 at `page = 2`, `per_page = 10`, `total = 25`. -/
theorem c1_pagination_arithmetic_witness :
    1 ≤ 10 ∧
    (PaginationQuery.offset { page := 0, per_page := 10 } = 0 ∧
     PaginationQuery.offset { page := 2 + 1, per_page := 10 } = 2 * 10 ∧
     PaginationQuery.limit { page := 2, per_page := 10 } = 10 ∧
     ∃ meta, PaginationMeta.new 25 2 10 = some meta ∧
       meta.total_pages = ceilDivSpec 25 10 ∧
       25 ≤ meta.total_pages * 10 ∧
       (∀ n, 25 ≤ n * 10 → meta.total_pages ≤ n) ∧
       (25 = 0 → meta.total_pages = 0)) :=
  ⟨by decide, c1_pagination_arithmetic 2 10 25 (by decide)⟩

/-- C10: a `per_page` of 0 passes pagination-query deserialization (nothing
enforces the documented minimum), and `PaginationMeta::new` with
`per_page = 0` panics for every total — division by zero when `total > 0`,
checked-subtraction overflow in `total + per_page - 1` when `total = 0` —
instead of returning a value. -/
theorem c10_per_page_zero_accepted_then_panics :
    (PaginationQuery.deserialize none (some 0)).per_page = 0 ∧
    ∀ total page, PaginationMeta.new total page 0 = none := by
  refine ⟨rfl, fun total page => ?_⟩
  unfold PaginationMeta.new
  rcases Nat.eq_zero_or_pos total with h | h
  · rw [if_pos (by omega)]
  · rw [if_neg (by omega), if_pos rfl]

set_option maxRecDepth 40000 in
/-- C4: the pagination query defaults to `page = 1`, `per_page = 10` when
absent, but nothing caps `per_page` at 100: a request with `per_page = 1000`
reaches the store with limit 1000, the list endpoint returns 120 items from
a 120-row table, and the response metadata echoes `per_page = 1000`.  (The
`#[param(maximum = 100)]` annotation on the field documents a cap in the
OpenAPI schema that the code never enforces.) -/
theorem c4_per_page_defaults_hold_but_cap_absent :
    PaginationQuery.deserialize none none = { page := 1, per_page := 10 } ∧
    (PaginationQuery.deserialize (some 1) (some 1000)).limit = 1000 ∧
    (list_posts bigDb (PaginationQuery.deserialize (some 1) (some 1000))).map
        (fun r => match r with
          | Except.ok (items, meta) => (items.length, meta.per_page, meta.total_pages)
          | Except.error _ => (0, 0, 0)) = some (120, 1000, 1) := by
  exact ⟨rfl, rfl, rfl⟩

/-- What `byteTake` returns is a prefix of the content whose UTF-8 encoding
is exactly `n` bytes long. -/
theorem byteTake_spec (cs : List Char) (n : Nat) (pre : List Char)
    (h : byteTake cs n = some pre) :
    utf8Len pre = n ∧ ∃ rest, cs = pre ++ rest := by
  induction cs generalizing n pre with
  | nil =>
    cases n with
    | zero =>
      simp only [byteTake, Option.some_inj] at h
      subst h
      exact ⟨rfl, [], rfl⟩
    | succ n => exact absurd h (by simp [byteTake])
  | cons c cs ih =>
    cases n with
    | zero =>
      simp only [byteTake, Option.some_inj] at h
      subst h
      exact ⟨rfl, c :: cs, rfl⟩
    | succ n =>
      rw [byteTake] at h
      by_cases hsz : c.utf8Size ≤ n + 1
      · rw [if_pos hsz] at h
        cases hb : byteTake cs (n + 1 - c.utf8Size) with
        | none => rw [hb] at h; exact absurd h (by simp)
        | some tail =>
          rw [hb] at h
          simp only [Option.map, Option.some_inj] at h
          obtain ⟨hlen, rest, hrest⟩ := ih (n + 1 - c.utf8Size) tail hb
          subst h
          refine ⟨?_, rest, by simp [hrest]⟩
          simp only [utf8Len, hlen]
          omega
      · rw [if_neg hsz] at h
        exact absurd h (by simp)

/-- C3 (counterexample): a content of 51 characters (102 UTF-8 bytes) has at
most 100 characters, so the claim requires the verbatim content with no
marker, yet the code truncates it to its first 50 characters (100 bytes)
plus the ellipsis; and a content whose byte offset 100 falls inside a
character makes the excerpt slice panic instead of producing a value. -/
theorem c3_excerpt_counterexample :
    accentPost.content.data.length = 51 ∧
    (PostListItemResponse.from_post_with_author accentPost alice).map
        (fun r => r.excerpt) =
      some (String.mk (List.replicate 50 'é') ++ "...") ∧
    String.mk (List.replicate 50 'é') ++ "..." ≠ accentPost.content ∧
    PostListItemResponse.from_post_with_author straddlePost alice = none := by
  refine ⟨rfl, rfl, by decide, rfl⟩

/-- C3 (amended): the excerpt computation works on UTF-8 bytes, not
characters — content of more than 100 bytes whose byte offset 100 falls on a
character boundary gives an excerpt of exactly the characters of the first
100 bytes followed by the ellipsis marker `"..."`, content of more than 100
bytes whose offset 100 falls inside a character makes the handler panic, and
content of at most 100 bytes is returned verbatim with no marker.  (On ASCII
content, where bytes and characters coincide, this is the original claim.) -/
theorem c3_excerpt_byte_semantics (post : PostModel) (author : UserModel) :
    (utf8Len post.content.data ≤ 100 →
      (PostListItemResponse.from_post_with_author post author).map
          (fun r => r.excerpt) = some post.content) ∧
    (100 < utf8Len post.content.data →
      (PostListItemResponse.from_post_with_author post author).map
          (fun r => r.excerpt) =
        (byteTake post.content.data 100).map (fun pre => String.mk pre ++ "...")) ∧
    (∀ pre, byteTake post.content.data 100 = some pre →
      utf8Len pre = 100 ∧ ∃ rest, post.content.data = pre ++ rest) ∧
    (100 < utf8Len post.content.data → byteTake post.content.data 100 = none →
      PostListItemResponse.from_post_with_author post author = none) := by
  refine ⟨?_, ?_, ?_, ?_⟩
  · intro h
    unfold PostListItemResponse.from_post_with_author
    rw [if_neg (by omega)]
    rfl
  · intro h
    unfold PostListItemResponse.from_post_with_author
    rw [if_pos h]
    cases byteTake post.content.data 100 with
    | none => rfl
    | some pre => rfl
  · intro pre hp
    exact byteTake_spec post.content.data 100 pre hp
  · intro h hn
    unfold PostListItemResponse.from_post_with_author
    rw [if_pos h, hn]
    rfl

/-- Witness for the amended C3: verbatim 13-byte content, truncated 101-byte
ASCII content, and the panicking 201-byte content with a straddled
boundary. -/
theorem c3_excerpt_byte_semantics_witness :
    (utf8Len shortPost.content.data ≤ 100 ∧
     (PostListItemResponse.from_post_with_author shortPost alice).map
         (fun r => r.excerpt) = some shortPost.content) ∧
    (100 < utf8Len longPost.content.data ∧
     (PostListItemResponse.from_post_with_author longPost alice).map
         (fun r => r.excerpt) =
       (byteTake longPost.content.data 100).map (fun pre => String.mk pre ++ "...")) ∧
    (100 < utf8Len straddlePost.content.data ∧
     byteTake straddlePost.content.data 100 = none ∧
     PostListItemResponse.from_post_with_author straddlePost alice = none) :=
  ⟨⟨by decide, (c3_excerpt_byte_semantics shortPost alice).1 (by decide)⟩,
   ⟨by decide, (c3_excerpt_byte_semantics longPost alice).2.1 (by decide)⟩,
   ⟨by decide, by decide,
    (c3_excerpt_byte_semantics straddlePost alice).2.2.2 (by decide) (by decide)⟩⟩

/-- C8: reading the metadata column back never propagates an error — whenever
the stored JSON value fails to deserialize as a `PostMetadata`, the read
yields the default document (no tags, no seo, no settings). -/
theorem c8_metadata_read_falls_back_to_default (m : PostModel)
    (h : PostMetadata.fromJson m.metadata = none) :
    m.get_metadata = { tags := [], seo := none, settings := none } := by
  unfold PostModel.get_metadata
  rw [h]
  rfl

/-- Witness for C8: a row whose metadata column holds the JSON string
`"corrupt"`. -/
theorem c8_metadata_read_falls_back_to_default_witness :
    PostMetadata.fromJson corruptPost.metadata = none ∧
    corruptPost.get_metadata = { tags := [], seo := none, settings := none } :=
  ⟨rfl, c8_metadata_read_falls_back_to_default corruptPost rfl⟩

/-! ## Round-trip lemmas for the Metadata document -/

/-- Element-wise deserialization undoes element-wise serialization. -/
theorem parseElems_map (p : α → Json) (q : Json → Option α)
    (h : ∀ a, q (p a) = some a) (xs : List α) :
    parseElems q (xs.map p) = some xs := by
  induction xs with
  | nil => rfl
  | cons x xs ih =>
    simp only [List.map_cons, parseElems, h x, ih]
    rfl

/-- `Tag` round-trips through JSON. -/
theorem tag_fromJson_toJson (t : Tag) : Tag.fromJson t.toJson = some t := by
  cases t with
  | mk name color => cases color <;> rfl

/-- `PostSettings` round-trips through JSON. -/
theorem postSettings_fromJson_toJson (s : PostSettings) :
    PostSettings.fromJson s.toJson = some s := by
  cases s with
  | mk ac ft rt => cases rt <;> rfl

/-- `SeoMetadata` round-trips through JSON. -/
theorem seoMetadata_fromJson_toJson (s : SeoMetadata) :
    SeoMetadata.fromJson s.toJson = some s := by
  cases s with
  | mk mt md kw =>
    cases mt <;> cases md <;>
      simp [SeoMetadata.toJson, SeoMetadata.fromJson, Json.lookup, optJson,
        parseOptField, asStr, asStrList,
        parseElems_map Json.str asStr (fun _ => rfl)]

/-- Deserializing an optional nested `SeoMetadata` that was just serialized. -/
theorem parseOptField_seo (s : Option SeoMetadata) :
    parseOptField SeoMetadata.fromJson (some (optJson SeoMetadata.toJson s)) =
      some s := by
  cases s with
  | none => rfl
  | some v =>
    show (SeoMetadata.fromJson v.toJson).map some = some (some v)
    rw [seoMetadata_fromJson_toJson]
    rfl

/-- Deserializing an optional nested `PostSettings` that was just
serialized. -/
theorem parseOptField_settings (s : Option PostSettings) :
    parseOptField PostSettings.fromJson (some (optJson PostSettings.toJson s)) =
      some s := by
  cases s with
  | none => rfl
  | some v =>
    show (PostSettings.fromJson v.toJson).map some = some (some v)
    rw [postSettings_fromJson_toJson]
    rfl

/-- C5: serializing any Metadata document and deserializing the resulting
JSON value gives the document back unchanged. -/
theorem c5_metadata_roundtrip (m : PostMetadata) :
    PostMetadata.fromJson m.toJson = some m := by
  cases m with
  | mk tags seo settings =>
    simp [PostMetadata.toJson, PostMetadata.fromJson, Json.lookup,
      asTagList, parseOptField_seo, parseOptField_settings,
      parseElems_map Tag.toJson Tag.fromJson tag_fromJson_toJson]

/-- C2 (counterexample): the request with one 60-character tag name and a
valid title/content is rejected — its validation errors are exactly one
nested entry under `metadata` — yet the 422 response carries an empty
violation list: the nested tag violation is not referenced in the
response. -/
theorem c2_nested_violation_counterexample :
    CreatePostDto.validate nestedTagRequest =
      [("metadata", VKind.structKind
        [("tags", VKind.listKind
          [(0, [("name", VKind.fieldKind
            ["Le nom du tag doit faire entre 1 et 50 caractères"])])])])] ∧
    validationFailedResponse (CreatePostDto.validate nestedTagRequest) = (422, []) := by
  exact ⟨rfl, rfl⟩

/-- C2 (amended): a create-post request whose only violation is a
60-character nested tag name is rejected with status 422, but the returned
violation list is empty — `field_errors()` drops `Struct`/`List`-kind
entries, so violations inside nested objects never reach the response body;
top-level field violations are all reported together (a request with both a
bad title and bad content lists both). -/
theorem c2_nested_rejected_but_violations_dropped :
    (CreatePostDto.validate nestedTagRequest ≠ [] ∧
     validationFailedResponse (CreatePostDto.validate nestedTagRequest) = (422, [])) ∧
    ∀ d : CreatePostDto, d.title.length < 3 → d.content.length < 10 →
      (validationFailedResponse d.validate).1 = 422 ∧
      ∃ rest, (validationFailedResponse d.validate).2 =
        { field := "title",
          messages := ["Le titre doit faire entre 3 et 255 caractères"] } ::
        { field := "content",
          messages := ["Le contenu doit faire au moins 10 caractères"] } :: rest := by
  refine ⟨⟨?_, rfl⟩, fun d h1 h2 => ⟨rfl, ?_⟩⟩
  · intro h
    have he : CreatePostDto.validate nestedTagRequest =
        [("metadata", VKind.structKind
          [("tags", VKind.listKind
            [(0, [("name", VKind.fieldKind
              ["Le nom du tag doit faire entre 1 et 50 caractères"])])])])] := rfl
    rw [he] at h
    exact List.cons_ne_nil _ _ h
  · unfold CreatePostDto.validate
    rw [if_pos (Or.inl h1), if_pos h2]
    exact ⟨_, rfl⟩

/-- Witness for the amended C2 at a request with a 2-character title and a
5-character content. -/
theorem c2_nested_rejected_but_violations_dropped_witness :
    badTitleContentDto.title.length < 3 ∧ badTitleContentDto.content.length < 10 ∧
    ((validationFailedResponse badTitleContentDto.validate).1 = 422 ∧
     ∃ rest, (validationFailedResponse badTitleContentDto.validate).2 =
       { field := "title",
         messages := ["Le titre doit faire entre 3 et 255 caractères"] } ::
       { field := "content",
         messages := ["Le contenu doit faire au moins 10 caractères"] } :: rest) :=
  ⟨by decide, by decide,
   c2_nested_rejected_but_violations_dropped.2 badTitleContentDto (by decide) (by decide)⟩

/-- C6: creating a user fails with `AlreadyExists` — surfaced as 409 Conflict
with body `error = "Conflict"`, `details = "Email already exists"` — exactly
when some stored user already has the requested email at the pre-insert
check; updating a user re-checks uniqueness only for an email different from
the current one, so supplying the unchanged current email never yields
`AlreadyExists`, while a changed email that is already taken does. -/
theorem c6_email_uniqueness (users : List UserModel) (dto : CreateUserDto)
    (now newId id : Int) (u : UserModel) (udto : UpdateUserDto) :
    (UserService.create users dto now newId =
        Except.error (ServiceError.alreadyExists "Email already exists") ↔
      ∃ w ∈ users, w.email = dto.email) ∧
    (ServiceError.alreadyExists "Email already exists").toApiError.into_response =
      (409, { error := "Conflict", details := some "Email already exists" }) ∧
    (users.find? (fun w => w.id == id) = some u → udto.email = some u.email →
      ∀ s, UserService.update users id udto ≠
        Except.error (ServiceError.alreadyExists s)) ∧
    (∀ e, users.find? (fun w => w.id == id) = some u → udto.email = some e →
      e ≠ u.email → (∃ w ∈ users, w.email = e) →
      UserService.update users id udto =
        Except.error (ServiceError.alreadyExists "Email already exists")) := by
  refine ⟨?_, rfl, ?_, ?_⟩
  · rcases h : users.find? (fun w : UserModel => w.email == dto.email) with _ | w
    · simp only [UserService.create, h]
      constructor
      · intro hcr
        exact absurd hcr (by simp)
      · rintro ⟨w, hw, he⟩
        have := List.find?_eq_none.mp h w hw
        simp [he] at this
    · simp only [UserService.create, h]
      constructor
      · intro _
        exact ⟨w, List.mem_of_find?_eq_some h, by simpa using List.find?_some h⟩
      · intro _
        trivial
  · intro hfind heq s
    simp [UserService.update, hfind, heq]
  · intro e hfind he hne hex
    obtain ⟨w, hw, hwe⟩ := hex
    have hsome : (users.find? (fun x : UserModel => x.email == e)).isSome = true :=
      List.find?_isSome.mpr ⟨w, hw, by simp [hwe]⟩
    simp [UserService.update, hfind, he, hne, hsome]

/-- Witness for C6: duplicate-email create, unchanged-email update, and
taken-email update against the two-user table `[alice, bob]`. -/
theorem c6_email_uniqueness_witness :
    UserService.create [alice, bob]
        { username := "carol", email := "alice@example.com" } 0 3 =
      Except.error (ServiceError.alreadyExists "Email already exists") ∧
    (∀ s, UserService.update [alice, bob] 1
        { username := none, email := some "alice@example.com" } ≠
      Except.error (ServiceError.alreadyExists s)) ∧
    UserService.update [alice, bob] 2
        { username := none, email := some "alice@example.com" } =
      Except.error (ServiceError.alreadyExists "Email already exists") :=
  ⟨(c6_email_uniqueness [alice, bob]
      { username := "carol", email := "alice@example.com" } 0 3 1 alice
      { username := none, email := some "alice@example.com" }).1.mpr
      ⟨alice, by simp, rfl⟩,
   fun s => (c6_email_uniqueness [alice, bob]
      { username := "carol", email := "alice@example.com" } 0 3 1 alice
      { username := none, email := some "alice@example.com" }).2.2.1 rfl rfl s,
   (c6_email_uniqueness [alice, bob]
      { username := "carol", email := "alice@example.com" } 0 3 2 bob
      { username := none, email := some "alice@example.com" }).2.2.2
      "alice@example.com" rfl rfl (by decide) ⟨alice, by simp, rfl⟩⟩

/-- C7: a successful post update changes only the fields present in the DTO,
always stamps `updated_at` with the current time, and replaces the stored
metadata document entirely — with `m.to_json`, independent of the stored
document — whenever the DTO carries metadata. -/
theorem c7_partial_update_frame (db : Db) (id : Int) (dto : UpdatePostDto)
    (now : Int) (p : PostModel) (a : UserModel)
    (hp : db.posts.find? (fun x => x.id == id) = some p)
    (ha : db.users.find? (fun u => u.id == p.author_id) = some a) :
    ∃ db2 p2, PostService.update db id dto now = Except.ok (db2, p2, a) ∧
      p2.updated_at = some now ∧
      (dto.title = none → p2.title = p.title) ∧
      (dto.content = none → p2.content = p.content) ∧
      (dto.metadata = none → p2.metadata = p.metadata) ∧
      (dto.published = none → p2.published = p.published) ∧
      (∀ t, dto.title = some t → p2.title = t) ∧
      (∀ m, dto.metadata = some m → p2.metadata = m.to_json) ∧
      p2.id = p.id ∧ p2.author_id = p.author_id ∧ p2.created_at = p.created_at := by
  simp only [PostService.update, hp, ha]
  refine ⟨_, _, rfl, rfl, ?_, ?_, ?_, ?_, ?_, ?_, rfl, rfl, rfl⟩
  · intro h
    simp [h]
  · intro h
    simp [h]
  · intro h
    simp [h]
  · intro h
    simp [h]
  · intro t h
    simp [h]
  · intro m h
    simp [h]

/-- Witness for C7: a title-only update and a metadata-only update of
`updatablePost`. -/
theorem c7_partial_update_frame_witness :
    updateDb.posts.find? (fun x => x.id == 5) = some updatablePost ∧
    updateDb.users.find? (fun u => u.id == updatablePost.author_id) = some alice ∧
    (∃ db2 p2, PostService.update updateDb 5 titleOnlyDto 42 = Except.ok (db2, p2, alice) ∧
      p2.updated_at = some 42 ∧
      (titleOnlyDto.title = none → p2.title = updatablePost.title) ∧
      (titleOnlyDto.content = none → p2.content = updatablePost.content) ∧
      (titleOnlyDto.metadata = none → p2.metadata = updatablePost.metadata) ∧
      (titleOnlyDto.published = none → p2.published = updatablePost.published) ∧
      (∀ t, titleOnlyDto.title = some t → p2.title = t) ∧
      (∀ m, titleOnlyDto.metadata = some m → p2.metadata = m.to_json) ∧
      p2.id = updatablePost.id ∧ p2.author_id = updatablePost.author_id ∧
      p2.created_at = updatablePost.created_at) ∧
    (∃ db2 p2, PostService.update updateDb 5 metadataOnlyDto 42 = Except.ok (db2, p2, alice) ∧
      p2.updated_at = some 42 ∧
      (metadataOnlyDto.title = none → p2.title = updatablePost.title) ∧
      (metadataOnlyDto.content = none → p2.content = updatablePost.content) ∧
      (metadataOnlyDto.metadata = none → p2.metadata = updatablePost.metadata) ∧
      (metadataOnlyDto.published = none → p2.published = updatablePost.published) ∧
      (∀ t, metadataOnlyDto.title = some t → p2.title = t) ∧
      (∀ m, metadataOnlyDto.metadata = some m → p2.metadata = m.to_json) ∧
      p2.id = updatablePost.id ∧ p2.author_id = updatablePost.author_id ∧
      p2.created_at = updatablePost.created_at) :=
  ⟨rfl, rfl,
   c7_partial_update_frame updateDb 5 titleOnlyDto 42 updatablePost alice rfl rfl,
   c7_partial_update_frame updateDb 5 metadataOnlyDto 42 updatablePost alice rfl rfl⟩

/-- C9: the business-to-transport mapping is total and fixed — `NotFound`
gives HTTP 404, `AlreadyExists` gives 409 Conflict with its detail string in
the body, a store failure gives 500 with the detail suppressed — and every
transport error serializes as a category label plus an optional detail
string. -/
theorem c9_error_mapping_total_and_fixed (msg : String) (e : ApiError) :
    ServiceError.notFound.toApiError = ApiError.notFound ∧
    ApiError.notFound.into_response =
      (404, { error := "Resource not found", details := none }) ∧
    (ServiceError.alreadyExists msg).toApiError = ApiError.conflict msg ∧
    (ApiError.conflict msg).into_response =
      (409, { error := "Conflict", details := some msg }) ∧
    (ServiceError.database msg).toApiError = ApiError.databaseError msg ∧
    (ApiError.databaseError msg).into_response =
      (500, { error := "Database error", details := none }) ∧
    ∃ status label details, e.into_response = (status, { error := label, details := details }) := by
  refine ⟨rfl, rfl, rfl, rfl, rfl, rfl, ?_⟩
  cases e <;> exact ⟨_, _, _, rfl⟩

end ApiRust
